import Mathlib

/-!
Verification development for the jackpot-iq-api attestation pipeline.

The development shallowly embeds the Apple App Attest verification service
(src/src/services/appAttest.js, second / mature class definition), the
authentication routes (src/src/routes/auth.js and the earlier iteration in
src/unnamed/part_001), the verified-device registry
(src/src/services/dataService.js) and, for the claims about the earlier
iterations, the bypass-laden functions of src/unnamed/part_002 and the
first class definition of src/src/services/appAttest.js.

Modelling conventions:
  * byte strings are `List Nat` (each entry a byte value);
  * `crypto.createHash('sha256')` is embedded as a full executable SHA-256
    over byte lists (`sha256` below), so challenge/nonce binding is computed
    for real;
  * X.509 certificates are structured values (`Cert`): signature validity
    under a public key is idealised Dolev-Yao style (a certificate records
    the key that signed it), validity windows and subject/issuer strings are
    explicit fields, `String.includes` is an infix-of-bytes check;
  * external library calls that can throw (cbor.decode, asn1 decode,
    Buffer.from of a missing field, X509 parsing) are embedded as `Option`:
    `none` is the thrown-and-caught path of the source;
  * JS objects used as string-keyed maps (the verified-devices registry)
    are association lists updated in place, as `devices[deviceId] = ...` does.
-/

set_option maxRecDepth 40000

namespace JackpotIQ

/-! ## SHA-256 over byte lists (crypto.createHash('sha256')) -/

def mask32 : Nat := 4294967295

def rotate32 (n x : Nat) : Nat := ((x >>> n) ||| (x <<< (32 - n))) &&& mask32

def chooseBits (e f g : Nat) : Nat := (e &&& f) ^^^ ((e ^^^ mask32) &&& g)

def majorityBits (a b c : Nat) : Nat := (a &&& b) ^^^ (a &&& c) ^^^ (b &&& c)

def sumA (x : Nat) : Nat := rotate32 2 x ^^^ rotate32 13 x ^^^ rotate32 22 x

def sumE (x : Nat) : Nat := rotate32 6 x ^^^ rotate32 11 x ^^^ rotate32 25 x

def sigA (x : Nat) : Nat := rotate32 7 x ^^^ rotate32 18 x ^^^ (x >>> 3)

def sigE (x : Nat) : Nat := rotate32 17 x ^^^ rotate32 19 x ^^^ (x >>> 10)

def sha256K : List Nat :=
  [1116352408, 1899447441, 3049323471, 3921009573, 961987163, 1508970993,
   2453635748, 2870763221, 3624381080, 310598401, 607225278, 1426881987,
   1925078388, 2162078206, 2614888103, 3248222580, 3835390401, 4022224774,
   264347078, 604807628, 770255983, 1249150122, 1555081692, 1996064986,
   2554220882, 2821834349, 2952996808, 3210313671, 3336571891, 3584528711,
   113926993, 338241895, 666307205, 773529912, 1294757372, 1396182291,
   1695183700, 1986661051, 2177026350, 2456956037, 2730485921, 2820302411,
   3259730800, 3345764771, 3516065817, 3600352804, 4094571909, 275423344,
   430227734, 506948616, 659060556, 883997877, 958139571, 1322822218,
   1537002063, 1747873779, 1955562222, 2024104815, 2227730452, 2361852424,
   2428436474, 2756734187, 3204031479, 3329325298]

structure Hash8 where
  h0 : Nat
  h1 : Nat
  h2 : Nat
  h3 : Nat
  h4 : Nat
  h5 : Nat
  h6 : Nat
  h7 : Nat
deriving Repr, DecidableEq

def initHash : Hash8 :=
  ⟨1779033703, 3144134277, 1013904242, 2773480762,
   1359893119, 2600822924, 528734635, 1541459225⟩

def scheduleStep (acc : List Nat) : List Nat :=
  let n := acc.length
  acc ++ [(sigE (acc.getD (n - 2) 0) + acc.getD (n - 7) 0 +
           sigA (acc.getD (n - 15) 0) + acc.getD (n - 16) 0) &&& mask32]

def schedule (w16 : List Nat) : List Nat :=
  (List.range 48).foldl (fun acc _ => scheduleStep acc) w16

def roundStep (s : Hash8) (kw : Nat × Nat) : Hash8 :=
  let t1 := (s.h7 + sumE s.h4 + chooseBits s.h4 s.h5 s.h6 + kw.1 + kw.2) &&& mask32
  let t2 := (sumA s.h0 + majorityBits s.h0 s.h1 s.h2) &&& mask32
  ⟨(t1 + t2) &&& mask32, s.h0, s.h1, s.h2, (s.h3 + t1) &&& mask32, s.h4, s.h5, s.h6⟩

def compressBlock (h : Hash8) (w16 : List Nat) : Hash8 :=
  let s := ((sha256K.zip (schedule w16))).foldl roundStep h
  ⟨(h.h0 + s.h0) &&& mask32, (h.h1 + s.h1) &&& mask32,
   (h.h2 + s.h2) &&& mask32, (h.h3 + s.h3) &&& mask32,
   (h.h4 + s.h4) &&& mask32, (h.h5 + s.h5) &&& mask32,
   (h.h6 + s.h6) &&& mask32, (h.h7 + s.h7) &&& mask32⟩

def bytesToWords : List Nat → List Nat
  | a :: b :: c :: d :: rest =>
      (((a &&& 255) <<< 24) ||| ((b &&& 255) <<< 16) ||| ((c &&& 255) <<< 8) ||| (d &&& 255)) ::
        bytesToWords rest
  | _ => []

def wordToBytes (w : Nat) : List Nat :=
  [(w >>> 24) &&& 255, (w >>> 16) &&& 255, (w >>> 8) &&& 255, w &&& 255]

def hashToBytes (h : Hash8) : List Nat :=
  wordToBytes h.h0 ++ wordToBytes h.h1 ++ wordToBytes h.h2 ++ wordToBytes h.h3 ++
  wordToBytes h.h4 ++ wordToBytes h.h5 ++ wordToBytes h.h6 ++ wordToBytes h.h7

def lenBytes64 (n : Nat) : List Nat :=
  [(n >>> 56) &&& 255, (n >>> 48) &&& 255, (n >>> 40) &&& 255, (n >>> 32) &&& 255,
   (n >>> 24) &&& 255, (n >>> 16) &&& 255, (n >>> 8) &&& 255, n &&& 255]

def padMessage (msg : List Nat) : List Nat :=
  let L := msg.length
  msg ++ 128 :: List.replicate ((119 - L % 64) % 64) 0 ++ lenBytes64 (8 * L)

def sha256 (msg : List Nat) : List Nat :=
  let padded := padMessage msg
  let blocks := (List.range (padded.length / 64)).map
    (fun i => bytesToWords ((padded.drop (64 * i)).take 64))
  hashToBytes (blocks.foldl compressBlock initHash)

theorem hashToBytes_length (h : Hash8) : (hashToBytes h).length = 32 := rfl

theorem sha256_length (m : List Nat) : (sha256 m).length = 32 := hashToBytes_length _

/-! ## Byte-string helpers (Buffer.toString('hex'), String.includes, regex) -/

/-- Lower-case hex digit, as Buffer.toString('hex') renders a nibble. -/
def hexDigitChar (n : Nat) : Char :=
  if n < 10 then Char.ofNat (48 + n) else Char.ofNat (87 + n)

/-- Buffer.prototype.toString('hex'): two lower-case hex digits per byte. -/
def bytesToHex (bs : List Nat) : String :=
  String.mk (bs.flatMap (fun b => [hexDigitChar ((b >>> 4) &&& 15), hexDigitChar (b &&& 15)]))

/-- One character of the class [0-9a-fA-F]. -/
def isHexChar (c : Char) : Bool :=
  (48 ≤ c.toNat && c.toNat ≤ 57) || (97 ≤ c.toNat && c.toNat ≤ 102) ||
  (65 ≤ c.toNat && c.toNat ≤ 70)

/-- isValidDeviceId of src/src/services/appAttest.js:478-481, the regex
test /^[0-9a-f]\x7b64\x7d$/i: a 64-character case-insensitive hex string. -/
def isValidDeviceId (deviceId : String) : Bool :=
  deviceId.length == 64 && deviceId.toList.all isHexChar

/-- String.prototype.includes over byte strings: needle occurs as an infix. -/
def containsSub (hay needle : List Nat) : Bool :=
  (List.range (hay.length + 1)).any (fun i => needle.isPrefixOf (hay.drop i))

/-! ## Certificates and configuration

An X.509 certificate (crypto.X509Certificate) is embedded as a record of the
fields the service reads. crypto.verify over certificates is idealised: a
certificate carries `issuerKeyId`, the identifier of the key that produced
its signature, and signature verification under a public key succeeds
exactly when that key signed the certificate. (The source's
verifyCertificateSignature at src/src/services/appAttest.js:378-396 passes
the certificate's signature bytes both as the data and as the signature to
crypto.verify; the embedding abstracts the call as the signed-by relation
the function is documented to decide.) -/

structure Cert where
  validFrom : Int
  validTo : Int
  pubKeyId : Nat
  issuerKeyId : Nat
  issuer : List Nat
  subject : List Nat
deriving Repr, DecidableEq

/-- Static configuration of AppAttestService (constructor,
src/src/services/appAttest.js:176-203): the trusted Apple root CA
certificate and the team/bundle identifiers, loaded once at startup. -/
structure Config where
  rootCA : Cert
  teamId : List Nat
  bundleId : List Nat
deriving Repr, DecidableEq

/-- The byte string "Apple". -/
def appleBytes : List Nat := [65, 112, 112, 108, 101]

/-- isValidCertificate (src/src/services/appAttest.js:352-370; the corrected
date handling of src/unnamed/part_002:343-365 and part_003:452-474 is the
same check): the certificate's validity window contains the current time,
false otherwise. (The second iteration's call of getTime() on the
string-typed validFrom/validTo fields throws and is caught as false, which
only rejects more; the window test below is the check all iterations
write.) -/
def isValidCertificate (cert : Cert) (now : Int) : Bool :=
  !(decide (now < cert.validFrom) || decide (cert.validTo < now))

/-- verifyCertificateSignature (src/src/services/appAttest.js:378-396):
true when `cert` is signed by `signingCert`'s public key, idealised as
recorded issuer-key identity; any exception is caught and yields false
(total here). -/
def verifyCertificateSignature (cert signingCert : Cert) : Bool :=
  cert.issuerKeyId == signingCert.pubKeyId

/-- verifyLeafCertificate (src/src/services/appAttest.js:403-428): the leaf
must be issued by Apple and its subject must name the configured bundle and
team identifiers (String.includes = infix of the subject string). -/
def verifyLeafCertificate (cfg : Config) (cert : Cert) : Bool :=
  containsSub cert.issuer appleBytes &&
  containsSub cert.subject cfg.bundleId &&
  containsSub cert.subject cfg.teamId

/-- The for-loop of verifyCertificateChain
(src/src/services/appAttest.js:309-324): for each adjacent pair
(cert[i], cert[i+1]), cert[i] is within its validity window and cert[i] is
signed by cert[i+1]. -/
def adjacentOk (now : Int) : List Cert → Bool
  | c1 :: c2 :: rest =>
      isValidCertificate c1 now && verifyCertificateSignature c1 c2 &&
        adjacentOk now (c2 :: rest)
  | _ => true

/-- verifyCertificateChain (src/src/services/appAttest.js:306-345): the
adjacent-pair loop, then the last certificate must be signed by the trusted
Apple root CA, then the leaf certificate must be for the configured app.
On the empty chain the source indexes certChain[-1], the X509 constructor
throws and the catch returns false: here the getLast? none branch. -/
def verifyCertificateChain (cfg : Config) (certChain : List Cert) (now : Int) : Bool :=
  adjacentOk now certChain &&
  (match certChain.getLast? with
   | none => false
   | some lastCert => verifyCertificateSignature lastCert cfg.rootCA) &&
  (match certChain.head? with
   | none => false
   | some leafCert => verifyLeafCertificate cfg leafCert)

/-! ## The decoded attestation object -/

/-- An attestation signature value, idealised: the data it signs and the key
it verifies under. crypto.verify(data, key, sig) is true exactly for that
pair. -/
structure SigVal where
  data : List Nat
  keyId : Nat
deriving Repr, DecidableEq

/-- The asn1.js decode of the receipt (ReceiptASN.decode(receipt, 'der')):
`deviceIdBytes` is the deviceId octet string when the DER decode succeeds,
none when the decode throws. -/
structure RawReceipt where
  deviceIdBytes : Option (List Nat)
deriving Repr, DecidableEq

/-- attStmt of the decoded CBOR attestation. Option fields are absent
(undefined) when none; reading an absent field throws in the source and is
caught by the enclosing try. -/
structure AttStmt where
  x5c : List Cert
  receipt : Option RawReceipt
  sig : Option SigVal
  clientDataHash : Option (List Nat)
deriving Repr, DecidableEq

/-- The decoded CBOR attestation object. -/
structure Attestation where
  fmt : String
  attStmt : Option AttStmt
  authData : Option (List Nat)
deriving Repr, DecidableEq

/-- isValidAttestationFormat (src/src/services/appAttest.js:254-263): the
fmt tag is 'apple-appattest', attStmt is present, x5c is non-empty and the
receipt field is present. -/
def isValidAttestationFormat (a : Attestation) : Bool :=
  a.fmt == "apple-appattest" &&
  (match a.attStmt with
   | none => false
   | some st => !st.x5c.isEmpty && st.receipt.isSome)

/-- getSignedData (src/src/services/appAttest.js:488-496):
concat(authData, clientDataHash); none models the TypeError thrown when
either buffer is absent, caught by verifySignature's catch. -/
def getSignedData (a : Attestation) : Option (List Nat) :=
  match a.attStmt with
  | none => none
  | some st =>
    match a.authData, st.clientDataHash with
    | some ad, some cdh => some (ad ++ cdh)
    | _, _ => none

/-- crypto.verify('sha256', data, key, signature), idealised over `SigVal`. -/
def cryptoVerify (data : List Nat) (keyId : Nat) (sg : SigVal) : Bool :=
  sg.data == data && sg.keyId == keyId

/-- verifySignature (src/src/services/appAttest.js:270-299): verify the
certificate chain, then verify the attestation signature over
authData ++ clientDataHash under the leaf certificate's key. Each thrown
path (absent sig, absent authData/clientDataHash, empty chain) is caught
and yields false. -/
def verifySignature (cfg : Config) (a : Attestation) (now : Int) : Bool :=
  match a.attStmt with
  | none => false
  | some st =>
    let certChain := st.x5c
    if !verifyCertificateChain cfg certChain now then false
    else
      match st.sig with
      | none => false
      | some sg =>
        match getSignedData a with
        | none => false
        | some signedData =>
          match certChain.head? with
          | none => false
          | some leafCert => cryptoVerify signedData leafCert.pubKeyId sg

/-- verifyChallenge (src/src/services/appAttest.js:436-443): the nonce is
authData.slice(32, 64) and the check is nonce.equals(sha256(challenge)). -/
def verifyChallenge (authData : List Nat) (challenge : List Nat) : Bool :=
  let nonce := List.take 32 (List.drop 32 authData)
  let expectedNonce := sha256 challenge
  nonce == expectedNonce

/-- verifyChallenge as the pipeline reaches it: when authData is absent the
slice throws and verifyAttestation's catch returns a failure, embedded as
false. -/
def verifyChallengeTotal (authData : Option (List Nat)) (challenge : List Nat) : Bool :=
  match authData with
  | none => false
  | some ad => verifyChallenge ad challenge

/-- extractDeviceId (src/src/services/appAttest.js:450-471): base64-decode
the receipt, DER-decode it, render the deviceId field as hex and validate
its format; every thrown or invalid path returns null (none). -/
def extractDeviceId (a : Attestation) : Option String :=
  match a.attStmt with
  | none => none
  | some st =>
    match st.receipt with
    | none => none
    | some r =>
      match r.deviceIdBytes with
      | none => none
      | some bs =>
        let deviceId := bytesToHex bs
        if isValidDeviceId deviceId then some deviceId else none

/-- verifyAttestation (src/src/services/appAttest.js:211-247). The input is
the cbor.decode result (none when the decode throws). The stages run in
source order: format, signature (which contains the certificate chain),
challenge, device-id extraction; the first failing stage produces the
undifferentiated failure result, embedded as none; full success yields the
device id. -/
def verifyAttestation (cfg : Config) (decoded : Option Attestation)
    (challenge : List Nat) (now : Int) : Option String :=
  match decoded with
  | none => none
  | some a =>
    if !isValidAttestationFormat a then none
    else if !verifySignature cfg a now then none
    else if !verifyChallengeTotal a.authData challenge then none
    else
      match extractDeviceId a with
      | none => none
      | some deviceId => some deviceId

/-- verifyAttestation with the challenge stage and the signature/chain stage
exchanged; defined to state that the exchange does not change the result. -/
def verifyAttestationSwapped (cfg : Config) (decoded : Option Attestation)
    (challenge : List Nat) (now : Int) : Option String :=
  match decoded with
  | none => none
  | some a =>
    if !isValidAttestationFormat a then none
    else if !verifyChallengeTotal a.authData challenge then none
    else if !verifySignature cfg a now then none
    else
      match extractDeviceId a with
      | none => none
      | some deviceId => some deviceId

/-! ## The verified-device registry (src/src/services/dataService.js) -/

/-- The record storeVerifiedDevice writes for a device id
(src/src/services/dataService.js:587-590). -/
structure DeviceRecord where
  verifiedAt : Nat
  attestationVerified : Bool
deriving Repr, DecidableEq

/-- The verified-devices.json object: a string-keyed map, embedded as an
association list (a JS object holds at most one entry per key). -/
def Registry := List (String × DeviceRecord)

instance : DecidableEq Registry := inferInstanceAs (DecidableEq (List (String × DeviceRecord)))

/-- JS property write devices[deviceId] = v: replace the entry in place when
the key exists, append it otherwise. -/
def objSet : Registry → String → DeviceRecord → Registry
  | [], k, v => [(k, v)]
  | p :: rest, k, v => if p.1 == k then (k, v) :: rest else p :: objSet rest k v

/-- JS property read devices[deviceId]: the entry at the key, if any. -/
def objGet : Registry → String → Option DeviceRecord
  | [], _ => none
  | p :: rest, k => if p.1 == k then some p.2 else objGet rest k

/-- The number of records the registry holds for a key. -/
def countKey (devices : Registry) (k : String) : Nat :=
  (devices.filter (fun p => p.1 == k)).length

/-- storeVerifiedDevice (src/src/services/dataService.js:576-598): set
devices[deviceId] to a fresh record with the current timestamp and
attestationVerified true, then write the file back. -/
def storeVerifiedDevice (devices : Registry) (deviceId : String) (now : Nat) : Registry :=
  objSet devices deviceId ⟨now, true⟩

/-- isDeviceVerified (src/src/services/dataService.js:605-613):
devices[deviceId]?.attestationVerified === true; a read failure is caught
as false. -/
def isDeviceVerified (devices : Registry) (deviceId : String) : Bool :=
  match objGet devices deviceId with
  | some r => r.attestationVerified
  | none => false

/-! ## Route handlers -/

/-- The body of POST /verify-attestation (src/src/routes/auth.js:40-69):
attestation (base64, here already decoded), challenge and the
client-declared keyID string. -/
structure VerifyRequest where
  attestation : Option Attestation
  challenge : List Nat
  keyID : String
deriving Repr, DecidableEq

/-- The JWT issued by POST /verify-attestation: payload
\x7b deviceId, keyId \x7d (src/src/routes/auth.js:55-62). -/
structure Token where
  deviceId : String
  keyId : String
deriving Repr, DecidableEq

/-- POST /verify-attestation (src/src/routes/auth.js:40-69): verify the
attestation against the supplied challenge; on failure respond 400 with no
token; on success sign a JWT whose deviceId comes from the verification
result and whose keyId is the request body's keyID, verbatim. The handler
calls no persistence service. -/
def handleVerifyAttestation (cfg : Config) (now : Int) (req : VerifyRequest) : Option Token :=
  match verifyAttestation cfg req.attestation req.challenge now with
  | none => none
  | some deviceId => some ⟨deviceId, req.keyID⟩

/-- The /verify-attestation route as a transition on server state: the
handler performs no read or write of the verified-devices store
(src/src/routes/auth.js:40-69 never calls dataService), so the registry
passes through unchanged beside the handler's response. -/
def verifyAttestationRoute (cfg : Config) (now : Int) (s : Registry)
    (req : VerifyRequest) : Registry × Option Token :=
  (s, handleVerifyAttestation cfg now req)

/-- The body of POST /verify-app-attest (src/unnamed/part_001:67-104). -/
structure AppAttestRequest where
  attestation : Option Attestation
  challenge : List Nat
deriving Repr, DecidableEq

/-- The JSON response of POST /verify-app-attest. -/
structure AttestResponse where
  verified : Bool
  deviceId : Option String
deriving Repr, DecidableEq

/-- POST /verify-app-attest (src/unnamed/part_001:67-104): in development
mode respond verified with the fixed dev device id and touch nothing; in
production verify the attestation, respond 400 on failure, and only on
success store the verified device id before responding. `tstamp` is the
wall-clock value storeVerifiedDevice writes. -/
def verifyAppAttestRoute (cfg : Config) (isDev : Bool) (now : Int) (tstamp : Nat)
    (s : Registry) (req : AppAttestRequest) : Registry × AttestResponse :=
  if isDev then (s, ⟨true, some "dev-device-id"⟩)
  else
    match verifyAttestation cfg req.attestation req.challenge now with
    | none => (s, ⟨false, none⟩)
    | some deviceId => (storeVerifiedDevice s deviceId tstamp, ⟨true, some deviceId⟩)

/-- POST /token (src/unnamed/part_001:107-141): in development mode issue a
token for the fixed dev device id without any check; otherwise issue a
token for the requested deviceId exactly when the registry reports it
verified, and respond 401 (no token) otherwise. The result is the subject
deviceId of the issued JWT. -/
def handleToken (isDev : Bool) (s : Registry) (deviceId : String) : Option String :=
  if isDev then some "dev-device-id"
  else if isDeviceVerified s deviceId then some deviceId
  else none

/-! ## Earlier iterations cited by the claims -/

set_option linter.unusedVariables false in
/-- verifyChallenge of src/unnamed/part_002:444-493: missing authData or an
empty challenge bypass the check with true; otherwise the nonce comparison
isEqual is computed, logged, and then discarded, the function returning
true on every path ('Bypassing challenge verification result for
testing'). -/
def verifyChallengeP2 (authData : Option (List Nat)) (challenge : List Nat) : Bool :=
  match authData with
  | none => true
  | some ad =>
    if challenge.isEmpty then true
    else
      let nonce := List.take 32 (List.drop 32 ad)
      let expectedNonce := sha256 challenge
      let isEqual := nonce == expectedNonce
      true

/-- extractDeviceId of the first iteration in src/src/services/appAttest.js
(lines 142-152): base64-decode the receipt and return the placeholder
string 'device-id-from-receipt'; a thrown read (absent attStmt or receipt)
returns null. -/
def extractDeviceIdV1 (a : Attestation) : Option String :=
  match a.attStmt with
  | none => none
  | some st =>
    match st.receipt with
    | none => none
    | some _ => some "device-id-from-receipt"

/-! ## Concrete inputs -/

/-- A root CA certificate for the concrete runs. -/
def rootCA0 : Cert := ⟨0, 100000, 100, 999, [], []⟩

/-- A leaf certificate signed by rootCA0, issued by Apple, subject naming
the configured bundle and team identifiers. -/
def leafCert0 : Cert := ⟨0, 1000, 1, 100, appleBytes, [66, 84]⟩

/-- Configuration for the concrete runs: team id "T", bundle id "B". -/
def cfg0 : Config := ⟨rootCA0, [84], [66]⟩

/-- The current time of the concrete runs, inside leafCert0's window. -/
def now0 : Int := 500

/-- The challenge "abc" of the accepted concrete request. -/
def ch0 : List Nat := [97, 98, 99]

/-- authenticatorData whose bytes 32-64 hold sha256(ch0). -/
def authData0 : List Nat := List.replicate 32 0 ++ sha256 ch0

/-- A client-data hash for the accepted concrete request. -/
def cdh0 : List Nat := [9]

/-- A signature over authData0 ++ cdh0 under leafCert0's key. -/
def sig0 : SigVal := ⟨authData0 ++ cdh0, 1⟩

/-- The receipt deviceId bytes of the accepted concrete request. -/
def devBytes0 : List Nat := List.replicate 32 171

/-- The device id hex string extractDeviceId derives from devBytes0. -/
def devId0 : String := bytesToHex devBytes0

/-- A concrete attestation every pipeline stage accepts. -/
def attOK : Attestation :=
  ⟨"apple-appattest",
   some ⟨[leafCert0], some ⟨some devBytes0⟩, some sig0, some cdh0⟩,
   some authData0⟩

/-- The accepted concrete /verify-attestation request. -/
def reqOK : VerifyRequest := ⟨some attOK, ch0, "key-1"⟩

/-- A concrete attestation identical in shape to attOK but whose
authenticatorData nonce bytes are all zero, so the nonce differs from
sha256 of any challenge below. -/
def attBad : Attestation :=
  ⟨"apple-appattest",
   some ⟨[leafCert0], some ⟨some devBytes0⟩, some ⟨List.replicate 64 0 ++ cdh0, 1⟩, some cdh0⟩,
   some (List.replicate 64 0)⟩

/-- An expired leaf certificate (window already elapsed at now0). -/
def certExpired : Cert := ⟨0, 10, 1, 50, appleBytes, [66, 84]⟩

/-- An intermediate certificate signed by rootCA0. -/
def certInter : Cert := ⟨0, 1000, 50, 100, appleBytes, []⟩

/-- A chain broken at its first link: the leaf is expired. -/
def chainBad : List Cert := [certExpired, certInter]

/-! ## Helper lemmas -/

/-- A broken adjacent pair (an out-of-window certificate or one not signed
by its successor) makes the chain loop report false. -/
theorem adjacentOk_eq_false {now : Int} {chain : List Cert} {p : Cert × Cert}
    (hm : p ∈ chain.zip chain.tail)
    (hbad : isValidCertificate p.1 now = false ∨ verifyCertificateSignature p.1 p.2 = false) :
    adjacentOk now chain = false := by
  induction chain with
  | nil => simp at hm
  | cons c rest ih =>
    cases rest with
    | nil => simp at hm
    | cons c2 rest2 =>
      simp only [List.tail_cons, List.zip_cons_cons, List.mem_cons] at hm
      unfold adjacentOk
      rcases hm with rfl | hm2
      · rcases hbad with hb | hb <;> simp [hb]
      · have hrest : adjacentOk now (c2 :: rest2) = false := ih (by simpa using hm2)
        simp [hrest]

/-- Reading back the key just written finds the fresh record. -/
theorem objGet_objSet_self (devices : Registry) (k : String) (v : DeviceRecord) :
    objGet (objSet devices k v) k = some v := by
  induction devices with
  | nil => simp [objSet, objGet]
  | cons p rest ih =>
    by_cases h : p.1 == k
    · simp [objSet, objGet, h]
    · simp [objSet, objGet, h, ih]

/-- Writing one key leaves every other key's entry unchanged. -/
theorem objGet_objSet_ne (devices : Registry) (kst kr : String) (v : DeviceRecord)
    (hne : kst ≠ kr) :
    objGet (objSet devices kst v) kr = objGet devices kr := by
  induction devices with
  | nil => simp [objSet, objGet, beq_eq_false_iff_ne.mpr hne]
  | cons p rest ih =>
    by_cases h : p.1 == kst
    · have hp : p.1 = kst := eq_of_beq h
      simp [objSet, objGet, h, hp, beq_eq_false_iff_ne.mpr hne]
    · by_cases h2 : p.1 == kr
      · simp [objSet, objGet, h, h2]
      · simp [objSet, objGet, h, h2, ih]

/-- Writing a key that the registry holds at most once leaves exactly one
record for it. -/
theorem countKey_objSet_self (devices : Registry) (k : String) (v : DeviceRecord)
    (hone : countKey devices k ≤ 1) :
    countKey (objSet devices k v) k = 1 := by
  revert hone
  induction devices with
  | nil => intro _; simp [objSet, countKey]
  | cons p rest ih =>
    intro hone
    by_cases h : p.1 == k
    · have hrest : countKey rest k = 0 := by
        simp [countKey, List.filter_cons, h] at hone
        simpa [countKey] using hone
      simp [objSet, countKey, h, List.filter_cons] at hrest ⊢
      simpa [countKey] using hrest
    · have hone2 : countKey rest k ≤ 1 := by
        simpa [countKey, List.filter_cons, h] using hone
      simpa [objSet, countKey, List.filter_cons, h] using ih hone2

/-- A device reported verified stays verified across any later store. -/
theorem isDeviceVerified_store (devices : Registry) (id k : String) (t : Nat)
    (h : isDeviceVerified devices id = true) :
    isDeviceVerified (storeVerifiedDevice devices k t) id = true := by
  unfold storeVerifiedDevice
  by_cases hk : k = id
  · subst hk
    unfold isDeviceVerified
    rw [objGet_objSet_self]
  · unfold isDeviceVerified at h ⊢
    rw [objGet_objSet_ne devices k id ⟨t, true⟩ hk]
    exact h

/-- A device reported verified stays verified across any sequence of later
stores. -/
theorem isDeviceVerified_foldl (ops : List (String × Nat)) (devices : Registry) (id : String)
    (h : isDeviceVerified devices id = true) :
    isDeviceVerified (ops.foldl (fun d p => storeVerifiedDevice d p.1 p.2) devices) id = true := by
  induction ops generalizing devices with
  | nil => exact h
  | cons p rest ih => exact ih _ (isDeviceVerified_store devices id p.1 p.2 h)

/-! ## The claims -/

/-- C1. The claim says no branch of the verification pipeline converts a
failed check into success. The cited code does: verifyChallenge of
src/unnamed/part_002:444-493 computes the nonce comparison, discards it and
returns true on every input, so an attestation whose nonce differs from
sha256(challenge) still passes the challenge stage. The theorem shows the
function is constantly true and exhibits a concrete input on which the
comparison it discards is false. -/
theorem c1_challenge_bypass :
    (∀ (ad : Option (List Nat)) (ch : List Nat), verifyChallengeP2 ad ch = true)
    ∧ verifyChallengeP2 (some (List.replicate 64 0)) [1, 2, 3] = true
    ∧ List.take 32 (List.drop 32 (List.replicate 64 0)) ≠ sha256 [1, 2, 3] := by
  refine ⟨?_, by decide, by decide⟩
  intro ad ch
  cases ad with
  | none => rfl
  | some a => by_cases h : ch.isEmpty <;> simp [verifyChallengeP2, h]

/-- C2. The claim says a challenge, once presented, is never accepted
again. The server keeps no challenge state: GET /app-attest-challenge
(src/src/routes/auth.js:27-37) returns fresh random bytes without storing
them, and POST /verify-attestation verifies statelessly. The theorem
replays the identical request (same attestation, same challenge) through
the route twice, threading the server's registry state, and both
presentations are accepted. -/
theorem c2_challenge_replay_accepted :
    ((verifyAttestationRoute cfg0 now0 [] reqOK).2).isSome = true
    ∧ ((verifyAttestationRoute cfg0 now0
          (verifyAttestationRoute cfg0 now0 [] reqOK).1 reqOK).2).isSome = true := by
  exact ⟨by decide, by decide⟩

/-- C3 counterexample. The claim requires a non-empty challenge for the
binding check to return true; verifyChallenge
(src/src/services/appAttest.js:436-443) never tests emptiness, so the
empty challenge whose sha256 digest sits at bytes 32-64 of
authenticatorData is accepted. -/
theorem c3_counterexample :
    verifyChallenge (List.replicate 32 0 ++ sha256 []) [] = true := by
  decide

/-- C3 amended. The binding check returns true iff authenticatorData has at
least 64 bytes and its bytes 32-64 equal sha256(challenge); the emptiness
of the challenge is not tested. -/
theorem c3_amended (ad ch : List Nat) :
    verifyChallenge ad ch = true ↔
      64 ≤ ad.length ∧ List.take 32 (List.drop 32 ad) = sha256 ch := by
  unfold verifyChallenge
  simp only [beq_iff_eq]
  constructor
  · intro h
    refine ⟨?_, h⟩
    have h32 : (List.take 32 (List.drop 32 ad)).length = 32 := by
      rw [h]; exact sha256_length ch
    simp [List.length_take, List.length_drop] at h32
    omega
  · intro h
    exact h.2

/-- C4. The claim says the device-identifier parser never returns a
placeholder identifier. extractDeviceId of the first iteration in
src/src/services/appAttest.js (lines 142-152) returns the constant
placeholder string for every attestation carrying a receipt; here it does
so on a concrete well-formed attestation. -/
theorem c4_placeholder_device_id :
    extractDeviceIdV1 attOK = some "device-id-from-receipt" := rfl

/-- C5. Certificate-chain verification
(src/src/services/appAttest.js:306-345) returns false whenever any link is
broken: an adjacent pair whose first certificate is outside its validity
window or is not signed by its successor, or a last certificate not signed
by the trusted root (vacuously covering the empty chain, which is also
rejected). -/
theorem c5_chain_broken (cfg : Config) (chain : List Cert) (now : Int)
    (h : (∃ p ∈ chain.zip chain.tail,
            isValidCertificate p.1 now = false ∨ verifyCertificateSignature p.1 p.2 = false)
       ∨ (∀ lastCert, chain.getLast? = some lastCert →
            verifyCertificateSignature lastCert cfg.rootCA = false)) :
    verifyCertificateChain cfg chain now = false := by
  unfold verifyCertificateChain
  rcases h with ⟨p, hm, hbad⟩ | hroot
  · simp [adjacentOk_eq_false hm hbad]
  · cases hl : chain.getLast? with
    | none => simp [hl]
    | some lastCert => simp [hl, hroot lastCert hl]

/-- C5 witness: a concrete two-certificate chain whose leaf is expired is
rejected. -/
theorem c5_witness : verifyCertificateChain cfg0 chainBad now0 = false :=
  c5_chain_broken cfg0 chainBad now0
    (Or.inl ⟨(certExpired, certInter), by decide, Or.inl (by decide)⟩)

/-- C6. Whenever the embedded nonce (bytes 32-64 of authenticatorData)
differs from sha256 of the supplied challenge, verifyAttestation
(src/src/services/appAttest.js:211-247) fails, whatever the certificate
chain does; and exchanging the order of the chain/signature stage and the
challenge stage yields the identical result on every input. -/
theorem c6_challenge_independent (cfg : Config) (decoded : Option Attestation)
    (ch : List Nat) (now : Int) :
    (∀ a ad, decoded = some a → a.authData = some ad →
        List.take 32 (List.drop 32 ad) ≠ sha256 ch →
        verifyAttestation cfg decoded ch now = none)
    ∧ verifyAttestation cfg decoded ch now = verifyAttestationSwapped cfg decoded ch now := by
  constructor
  · rintro a ad rfl had hne
    have hc : verifyChallengeTotal a.authData ch = false := by
      rw [had]
      simp only [verifyChallengeTotal, verifyChallenge]
      exact beq_eq_false_iff_ne.mpr hne
    unfold verifyAttestation
    cases hf : isValidAttestationFormat a <;>
      cases hs : verifySignature cfg a now <;>
        simp [hf, hs, hc]
  · cases decoded with
    | none => rfl
    | some a =>
      unfold verifyAttestation verifyAttestationSwapped
      cases hf : isValidAttestationFormat a <;>
        cases hs : verifySignature cfg a now <;>
          cases hc : verifyChallengeTotal a.authData ch <;>
            simp [hf, hs, hc]

/-- C7 counterexample. The claim says a credential is issued only for a
deviceId the registry reports registered. POST /verify-attestation
(src/src/routes/auth.js:40-69) consults no registry: with the registry
empty (as the mature flow leaves it, since it never writes one), the
handler still issues a token whose subject deviceId the registry reports
unregistered. -/
theorem c7_counterexample :
    handleVerifyAttestation cfg0 now0 reqOK = some ⟨devId0, "key-1"⟩
    ∧ isDeviceVerified [] devId0 = false := by
  exact ⟨by decide, by decide⟩

/-- C7 amended. The /token issuance endpoint (src/unnamed/part_001:107-141)
gates on the registry: outside development mode it issues exactly when
isDeviceVerified reports the device registered; development mode issues
unconditionally. The /verify-attestation endpoint, by contrast, issues
directly on verification success without consulting the registry. -/
theorem c7_token_requires_registration (isDev : Bool) (s : Registry) (deviceId : String) :
    (handleToken isDev s deviceId).isSome = true ↔
      (isDev = true ∨ isDeviceVerified s deviceId = true) := by
  unfold handleToken
  cases isDev with
  | true => simp
  | false => cases hv : isDeviceVerified s deviceId <;> simp [hv]

/-- C8. The /verify-app-attest route (src/unnamed/part_001:67-104) writes
the registry only after the whole pipeline has succeeded: a request whose
response is not verified leaves the registry exactly as it was, and any
registry change entails a fully successful production-mode verification. -/
theorem c8_registry_frame (cfg : Config) (isDev : Bool) (now : Int) (tstamp : Nat)
    (s : Registry) (req : AppAttestRequest) :
    ((verifyAppAttestRoute cfg isDev now tstamp s req).2.verified = false →
        (verifyAppAttestRoute cfg isDev now tstamp s req).1 = s)
    ∧ ((verifyAppAttestRoute cfg isDev now tstamp s req).1 ≠ s →
        isDev = false
        ∧ (verifyAttestation cfg req.attestation req.challenge now).isSome = true) := by
  unfold verifyAppAttestRoute
  cases isDev with
  | true => simp
  | false =>
    cases hv : verifyAttestation cfg req.attestation req.challenge now with
    | none => simp
    | some d => simp

/-- C9. Registering a device is idempotent: two stores in sequence leave
exactly one record for the id, holding the second timestamp with the
verified flag set; the device reads back verified, and stays verified
across any sequence of later stores (the flag never flickers back to
false). -/
theorem c9_register_idempotent (devices : Registry) (id : String) (t1 t2 : Nat)
    (ops : List (String × Nat)) (hone : countKey devices id ≤ 1) :
    countKey (storeVerifiedDevice (storeVerifiedDevice devices id t1) id t2) id = 1
    ∧ objGet (storeVerifiedDevice (storeVerifiedDevice devices id t1) id t2) id = some ⟨t2, true⟩
    ∧ isDeviceVerified (storeVerifiedDevice (storeVerifiedDevice devices id t1) id t2) id = true
    ∧ isDeviceVerified (ops.foldl (fun d p => storeVerifiedDevice d p.1 p.2)
        (storeVerifiedDevice (storeVerifiedDevice devices id t1) id t2)) id = true := by
  have h1 : countKey (storeVerifiedDevice devices id t1) id = 1 :=
    countKey_objSet_self devices id ⟨t1, true⟩ hone
  have h2 : countKey (storeVerifiedDevice (storeVerifiedDevice devices id t1) id t2) id = 1 :=
    countKey_objSet_self _ id ⟨t2, true⟩ (le_of_eq h1)
  have hget : objGet (storeVerifiedDevice (storeVerifiedDevice devices id t1) id t2) id
      = some ⟨t2, true⟩ := objGet_objSet_self _ id ⟨t2, true⟩
  have hver : isDeviceVerified (storeVerifiedDevice (storeVerifiedDevice devices id t1) id t2) id
      = true := by
    unfold isDeviceVerified
    rw [hget]
  exact ⟨h2, hget, hver, isDeviceVerified_foldl ops _ id hver⟩

/-- C9 witness: registering "d" twice from the empty registry, then storing
an unrelated device, keeps exactly one fresh record for "d" and it reads
back verified. -/
theorem c9_witness :
    countKey (storeVerifiedDevice (storeVerifiedDevice ([] : Registry) "d" 0) "d" 1) "d" = 1
    ∧ objGet (storeVerifiedDevice (storeVerifiedDevice ([] : Registry) "d" 0) "d" 1) "d"
        = some ⟨1, true⟩
    ∧ isDeviceVerified (storeVerifiedDevice (storeVerifiedDevice ([] : Registry) "d" 0) "d" 1) "d"
        = true
    ∧ isDeviceVerified ([("e", 5)].foldl (fun d p => storeVerifiedDevice d p.1 p.2)
        (storeVerifiedDevice (storeVerifiedDevice ([] : Registry) "d" 0) "d" 1)) "d" = true :=
  c9_register_idempotent [] "d" 0 1 [("e", 5)] (by decide)

set_option linter.unusedVariables false in
/-- C10. POST /verify-attestation copies the client-declared keyID into the
issued credential verbatim and never checks it against the attestation: two
requests equal but for their non-empty keyID strings have the same
verification outcome, and their credentials agree on deviceId and differ
only in the keyId claim. -/
theorem c10_keyid_passthrough (cfg : Config) (now : Int) (att : Option Attestation)
    (ch : List Nat) (k1 k2 : String) (h1 : k1 ≠ "") (h2 : k2 ≠ "") :
    (handleVerifyAttestation cfg now ⟨att, ch, k1⟩).isSome
      = (handleVerifyAttestation cfg now ⟨att, ch, k2⟩).isSome
    ∧ (∀ t1, handleVerifyAttestation cfg now ⟨att, ch, k1⟩ = some t1 →
         t1.keyId = k1
         ∧ handleVerifyAttestation cfg now ⟨att, ch, k2⟩ = some ⟨t1.deviceId, k2⟩) := by
  unfold handleVerifyAttestation
  cases hv : verifyAttestation cfg att ch now with
  | none => simp
  | some d =>
    refine ⟨rfl, ?_⟩
    rintro t1 ht
    cases ht
    exact ⟨rfl, rfl⟩

/-- C10 witness: the accepted concrete attestation with keyIDs "k1" and
"k2". -/
theorem c10_witness :
    (handleVerifyAttestation cfg0 now0 ⟨some attOK, ch0, "k1"⟩).isSome
      = (handleVerifyAttestation cfg0 now0 ⟨some attOK, ch0, "k2"⟩).isSome
    ∧ (∀ t1, handleVerifyAttestation cfg0 now0 ⟨some attOK, ch0, "k1"⟩ = some t1 →
         t1.keyId = "k1"
         ∧ handleVerifyAttestation cfg0 now0 ⟨some attOK, ch0, "k2"⟩
             = some ⟨t1.deviceId, "k2"⟩) :=
  c10_keyid_passthrough cfg0 now0 (some attOK) ch0 "k1" "k2" (by decide) (by decide)

end JackpotIQ
